import Mathlib

/-!
Verification of the stepper-axis controller of the XYStage repository.

Two concrete stepper controllers are embedded here, translated from the
Python source:

* `AppStepper` — the `Stepper` class of `src/app.py` (external DRV8825
  driver, PWM step clock).  Its state machine lives in the methods
  `speed`, `get_pos`, `_hit_endstop`, `_update_timer`, `enable`, `stop`.
* `XYStepper` — the `Stepper` class of `src/xystage.py` (timer driven,
  half-step position accounting), with the additional methods `target`,
  `step`, `overwrite_pos`, `free_run`, `track_target`, `step_size`.
* `HexStepper` — the `StepperHex` class of `src/xystage.py` (same logic
  as `XYStepper` plus a drive phase fed to the hexdrive collaborator).

Modelling conventions:

* Python ints are `Int`; Python `//` (floor division) is `Int.fdiv`;
  Python `int(a/b)` (truncation toward zero) is `Int.tdiv`.
* Hardware pin writes, PWM duty writes and `print` logging have no effect
  on the modelled state and are dropped.
* In `app.py`'s `Stepper` the guards `if self._settings['logging'].v:`
  are NOT mere logging: `Stepper.__init__` stores the app in
  `_container` and never sets `_settings` (and `class Stepper:` has no
  base class), so every evaluation of that guard raises
  `AttributeError`.  Execution of the enclosing method stops there: the
  pin-low branch of `_hit_endstop` assigns nothing, the soft-end-stop
  branches of `get_pos` never reach `speed(0)` or the `return`, and the
  nonzero-frequency branch of `_update_timer` (guard inside its
  `try/except`) updates none of `_freq`/`_timer_is_running`/
  `_timer_mode`.  The models below reflect exactly the state reached
  when the exception fires; see each definition's doc comment.
* The value read from the end-stop pin (`pin.value()` /
  `self._pins["stop"].value()`) is an environment input and is passed
  explicitly as an `Int` argument (`0` = pressed / active low).
* `time.ticks_ms()` rate limiting in `step` is real time; the outcome of
  the `< self._min_period` guard is passed as an explicit `Bool` input
  (`tooSoon`).
-/

/-- State of the `Stepper` class of `src/app.py` (fields of `__init__`,
hardware pin objects omitted; `_freq` is the current step-clock frequency,
`0` meaning the step clock is halted and the driver de-energized). -/
structure AppStepper where
  calibrated : Bool
  timer_is_running : Bool
  timer_mode : Int
  pos : Int
  free_run_mode : Int
  enabled : Bool
  reverse : Bool
  max_sps_change : Int
  max_sps : Int
  steps_per_sec : Int
  max_pos : Int
  freq : Int
  deriving DecidableEq

/-- `Stepper.__init__` of `src/app.py`: `_calibrated=False`, `_pos=0`,
`_free_run_mode=1`, `_max_sps_change=int(max_sps/10)`,
`_steps_per_sec=0`, `_freq=0`. -/
def AppStepper.init (reverse : Bool) (max_sps max_pos : Int) : AppStepper :=
  { calibrated := false
    timer_is_running := false
    timer_mode := 0
    pos := 0
    free_run_mode := 1
    enabled := false
    reverse := reverse
    max_sps_change := Int.tdiv max_sps 10
    max_sps := max_sps
    steps_per_sec := 0
    max_pos := max_pos
    freq := 0 }

/-- `Stepper._update_timer` of `src/app.py`: frequency `0` de-energizes
the driver, stops the PWM and records `_freq = 0`.  In the
nonzero-frequency branch the first statement inside the `try` is the
`self._settings['logging'].v` guard, which raises `AttributeError`
(`_settings` is never set on `Stepper`); the `except` swallows it, so
`_freq`, `_timer_is_running` and `_timer_mode` are never updated there
and the state is unchanged. -/
def AppStepper.update_timer (s : AppStepper) (freq : Int) : AppStepper :=
  if freq = 0 then
    { s with freq := 0 }
  else
    -- try: the logging guard raises before any assignment; except: print only
    s

/-- The branch of `Stepper.speed` of `src/app.py` that computes the new
`_steps_per_sec` value and the `speed_change_limited` flag (the body of
the `if sps > 0: ... else: ...` statement, which only reads fields).
`stopPin` is the live reading of the end-stop pin
(`self._pins["stop"].value()`). -/
def AppStepper.speedCalc (s : AppStepper) (sps stopPin : Int) : Int × Bool :=
  if sps > 0 then
    if s.calibrated ∧ s.pos ≥ s.max_pos then
      -- endstop reached
      (0, false)
    else
      let sps := if sps > s.max_sps then s.max_sps else sps
      if sps - s.steps_per_sec > s.max_sps_change then
        (s.steps_per_sec + s.max_sps_change, true)
      else if sps - s.steps_per_sec < -s.max_sps_change then
        (s.steps_per_sec - s.max_sps_change, true)
      else
        (sps, false)
  else
    if stopPin = 0 ∨ (s.calibrated ∧ s.pos ≤ 0) then
      -- endstop reached
      (0, false)
    else
      let sps := if sps < -s.max_sps then -s.max_sps else sps
      if sps - s.steps_per_sec > s.max_sps_change then
        (s.steps_per_sec + s.max_sps_change, true)
      else if sps - s.steps_per_sec < -s.max_sps_change then
        (s.steps_per_sec - s.max_sps_change, true)
      else
        (sps, false)

/-- `Stepper.speed` of `src/app.py`: flips the free-run direction on a
sign change, computes the clamped/limited speed via `speedCalc`, stores
it and reprograms the step clock.  Returns the new state and the
`speed_change_limited` flag. -/
def AppStepper.speed (s : AppStepper) (sps stopPin : Int) : AppStepper × Bool :=
  let s :=
    if s.free_run_mode = 1 ∧ sps < 0 then { s with free_run_mode := -1 }
    else if s.free_run_mode = -1 ∧ sps > 0 then { s with free_run_mode := 1 }
    else s
  let r := s.speedCalc sps stopPin
  let s := { s with steps_per_sec := r.1 }
  (s.update_timer |s.steps_per_sec|, r.2)

/-- `Stepper.get_pos` of `src/app.py`: integrates
`(_steps_per_sec * delta) // 1000` into `_pos` first.  When calibrated
and past a software end stop in the direction of travel, the source then
evaluates `self._settings['logging'].v`, which raises `AttributeError`
(`_settings` is never set on `Stepper`) before `speed(0)` and before the
`return`: the exception propagates to the caller with the position
already updated and the speed untouched.  The model returns `none` in
place of the reported position on those paths. -/
def AppStepper.get_pos (s : AppStepper) (delta : Int) : Option Int × AppStepper :=
  let s := { s with pos := s.pos + Int.fdiv (s.steps_per_sec * delta) 1000 }
  if s.calibrated then
    if s.pos < 0 ∧ s.steps_per_sec < 0 then
      -- the logging guard raises here, before self.speed(0) and the return
      (none, s)
    else if s.pos > s.max_pos ∧ s.steps_per_sec > 0 then
      -- the logging guard raises here, before self.speed(0) and the return
      (none, s)
    else (some s.pos, s)
  else (some s.pos, s)

/-- `Stepper._hit_endstop` of `src/app.py`.  On a confirmed low pin the
first statement is the `self._settings['logging'].v` guard, which raises
`AttributeError` (`_settings` is never set on `Stepper`) BEFORE
`_calibrated`/`_pos` are assigned or `speed(0)` is called; the interrupt
machinery swallows the exception, so the axis state is unchanged — in
particular `_calibrated` can never become true in `app.py`.  On a
nonzero pin only a false-alarm message (using the existing `_name`) is
printed. -/
def AppStepper.hit_endstop (s : AppStepper) (pinVal : Int) : AppStepper :=
  if pinVal = 0 then
    -- the logging guard raises here, before any assignment
    s
  else
    s

/-- `Stepper.enable` of `src/app.py`. -/
def AppStepper.enable (s : AppStepper) (e : Bool) : AppStepper :=
  let s := { s with enabled := e }
  if e then
    if s.free_run_mode ≠ 0 then s.update_timer |s.steps_per_sec| else s
  else
    s.update_timer 0

/-- `Stepper.stop` of `src/app.py`. -/
def AppStepper.stopClock (s : AppStepper) : AppStepper :=
  s.update_timer 0

/-- One externally invocable operation on the `app.py` axis, with its
environment inputs (end-stop pin reading, elapsed time). -/
inductive AppOp where
  | speedOp (sps stopPin : Int)
  | getPosOp (delta : Int)
  | endstopOp (pinVal : Int)
  | enableOp (e : Bool)
  | stopOp
  deriving DecidableEq

/-- Apply one operation to an `app.py` axis state. -/
def AppStepper.apply (s : AppStepper) : AppOp → AppStepper
  | .speedOp sps stopPin => (s.speed sps stopPin).1
  | .getPosOp delta => (s.get_pos delta).2
  | .endstopOp pinVal => s.hit_endstop pinVal
  | .enableOp e => s.enable e
  | .stopOp => s.stopClock

/-- Run a sequence of operations on an `app.py` axis state. -/
def AppStepper.run (s : AppStepper) : List AppOp → AppStepper
  | [] => s
  | op :: ops => (s.apply op).run ops

/-- State of the `Stepper` class of `src/xystage.py`.  `pos`, `target_pos`
and `max_pos` are in half steps (the constructor stores `2*max_pos`). -/
structure XYStepper where
  calibrated : Bool
  timer_is_running : Bool
  timer_mode : Int
  free_run_mode : Int
  enabled : Bool
  target_pos : Int
  pos : Int
  max_sps : Int
  steps_per_sec : Int
  max_pos : Int
  freq : Int
  min_period : Int
  step_size : Int
  deriving DecidableEq

/-- `Stepper._update_timer` of `src/xystage.py`: a running timer with a
different frequency is deinitialized first; a nonzero frequency that
differs from the (possibly just cleared) current one, or a changed
direction mode, re-initializes the timer and recomputes
`_min_period = (1000//freq) - 1`. -/
def XYStepper.update_timer (s : XYStepper) (freq : Int) : XYStepper :=
  let s :=
    if s.timer_is_running ∧ freq ≠ s.freq then
      { s with freq := 0, timer_is_running := false }
    else s
  if freq ≠ 0 ∧ (freq ≠ s.freq ∨ s.free_run_mode ≠ s.timer_mode) then
    { s with freq := freq, min_period := Int.fdiv 1000 freq - 1,
             timer_is_running := true, timer_mode := s.free_run_mode }
  else
    s

/-- `Stepper.speed` of `src/xystage.py`: flips the free-run direction on
a sign change, clamps to `±max_sps`, and reprograms the timer.  There is
no acceleration limiting in this class. -/
def XYStepper.speed (s : XYStepper) (sps : Int) : XYStepper :=
  let s :=
    if s.free_run_mode = 1 ∧ sps < 0 then { s with free_run_mode := -1 }
    else if s.free_run_mode = -1 ∧ sps > 0 then { s with free_run_mode := 1 }
    else s
  let sps :=
    if sps > s.max_sps then s.max_sps
    else if sps < -s.max_sps then -s.max_sps
    else sps
  let s := { s with steps_per_sec := sps }
  s.update_timer ((Int.fdiv 2 s.step_size) * |s.steps_per_sec|)

/-- `Stepper.target` of `src/xystage.py`: the requested target (full
steps) is stored doubled (half steps); when calibrated it is limited to
`[0, _max_pos]`, otherwise stored unchecked. -/
def XYStepper.target (s : XYStepper) (t : Int) : XYStepper :=
  if s.calibrated ∧ t < 0 then { s with target_pos := 0 }
  else if s.calibrated ∧ 2 * t > s.max_pos then { s with target_pos := s.max_pos }
  else { s with target_pos := 2 * t }

/-- `Stepper.get_pos` of `src/xystage.py`: reports the position in full
steps (`self._pos // 2`); read-only. -/
def XYStepper.get_pos (s : XYStepper) : Int :=
  Int.fdiv s.pos 2

/-- `Stepper.overwrite_pos` of `src/xystage.py`. -/
def XYStepper.overwrite_pos (s : XYStepper) (p : Int) : XYStepper :=
  { s with pos := 2 * p }

/-- `Stepper.step` of `src/xystage.py`: advances the position by
`±_step_size` and, when calibrated, clamps it back into `[0, _max_pos]`
while commanding `speed(0)`.  `tooSoon` is the outcome of the
`ticks_diff(...) < _min_period` rate guard. -/
def XYStepper.step (s : XYStepper) (d : Int) (tooSoon : Bool) : XYStepper :=
  if tooSoon then s
  else
    let s :=
      if d > 0 then { s with pos := s.pos + s.step_size }
      else if d < 0 then { s with pos := s.pos - s.step_size }
      else s
    if s.calibrated ∧ s.pos < 0 then
      ({ s with pos := 0 }).speed 0
    else if s.calibrated ∧ s.pos > s.max_pos then
      ({ s with pos := s.max_pos }).speed 0
    else
      s

/-- `Stepper._hit_endstop` of `src/xystage.py`: on a confirmed low pin,
sets `calibrated`; when free-running toward the stop it commands
`speed(0)` and overwrites the position with `0`; when tracking with the
target below the position it commands `speed(0)` only. -/
def XYStepper.hit_endstop (s : XYStepper) (pinVal : Int) : XYStepper :=
  if pinVal = 0 then
    let s := if ¬s.calibrated then { s with calibrated := true } else s
    if s.free_run_mode < 0 then
      (s.speed 0).overwrite_pos 0
    else if s.free_run_mode = 0 ∧ s.target_pos < s.pos then
      s.speed 0
    else
      s
  else
    s

/-- `Stepper.free_run` of `src/xystage.py`. -/
def XYStepper.free_run (s : XYStepper) (d : Int) : XYStepper :=
  let s := { s with free_run_mode := d }
  if d ≠ 0 then s.update_timer ((Int.fdiv 2 s.step_size) * |s.steps_per_sec|) else s

/-- `Stepper.track_target` of `src/xystage.py`. -/
def XYStepper.track_target (s : XYStepper) : XYStepper :=
  let s := { s with free_run_mode := 0 }
  s.update_timer ((Int.fdiv 2 s.step_size) * |s.steps_per_sec|)

/-- `Stepper.step_size` setter of `src/xystage.py` (clamps to 1..2). -/
def XYStepper.set_step_size (s : XYStepper) (sz : Int) : XYStepper :=
  let sz := if sz < 1 then 1 else if sz > 2 then 2 else sz
  { s with step_size := sz }

/-- `Stepper.enable` of `src/xystage.py`. -/
def XYStepper.enable (s : XYStepper) (e : Bool) : XYStepper :=
  let s := { s with enabled := e }
  if e then
    if s.free_run_mode ≠ 0 then
      s.update_timer ((Int.fdiv 2 s.step_size) * |s.steps_per_sec|)
    else s
  else
    s.update_timer 0

/-- `Stepper.stop` of `src/xystage.py`. -/
def XYStepper.stopClock (s : XYStepper) : XYStepper :=
  s.update_timer 0

/-- `Stepper.__init__` of `src/xystage.py`: zero position and target,
`_steps_per_sec = speed_sps`, `_max_pos = 2*max_pos`, then
`track_target()`. -/
def XYStepper.init (step_size speed_sps max_sps max_pos : Int) : XYStepper :=
  XYStepper.track_target
    { calibrated := false
      timer_is_running := false
      timer_mode := 0
      free_run_mode := 0
      enabled := false
      target_pos := 0
      pos := 0
      max_sps := max_sps
      steps_per_sec := speed_sps
      max_pos := 2 * max_pos
      freq := 0
      min_period := 0
      step_size := step_size }

/-- One externally invocable operation on the `xystage.py` axis. -/
inductive XYOp where
  | speedOp (sps : Int)
  | targetOp (t : Int)
  | overwritePosOp (p : Int)
  | stepOp (d : Int) (tooSoon : Bool)
  | endstopOp (pinVal : Int)
  | freeRunOp (d : Int)
  | trackTargetOp
  | stepSizeOp (sz : Int)
  | enableOp (e : Bool)
  | stopOp
  deriving DecidableEq

/-- Apply one operation to an `xystage.py` axis state. -/
def XYStepper.apply (s : XYStepper) : XYOp → XYStepper
  | .speedOp sps => s.speed sps
  | .targetOp t => s.target t
  | .overwritePosOp p => s.overwrite_pos p
  | .stepOp d tooSoon => s.step d tooSoon
  | .endstopOp pinVal => s.hit_endstop pinVal
  | .freeRunOp d => s.free_run d
  | .trackTargetOp => s.track_target
  | .stepSizeOp sz => s.set_step_size sz
  | .enableOp e => s.enable e
  | .stopOp => s.stopClock

/-- Run a sequence of operations on an `xystage.py` axis state. -/
def XYStepper.run (s : XYStepper) : List XYOp → XYStepper
  | [] => s
  | op :: ops => (s.apply op).run ops

/-- State of the `StepperHex` class of `src/xystage.py` (same fields as
`Stepper` plus the drive `phase`). -/
structure HexStepper where
  phase : Int
  calibrated : Bool
  timer_is_running : Bool
  timer_mode : Int
  free_run_mode : Int
  enabled : Bool
  target_pos : Int
  pos : Int
  max_sps : Int
  steps_per_sec : Int
  max_pos : Int
  freq : Int
  min_period : Int
  step_size : Int
  deriving DecidableEq

/-- `StepperHex._update_timer` of `src/xystage.py` (same frequency and
mode bookkeeping as `Stepper._update_timer`). -/
def HexStepper.update_timer (s : HexStepper) (freq : Int) : HexStepper :=
  let s :=
    if s.timer_is_running ∧ freq ≠ s.freq then
      { s with freq := 0, timer_is_running := false }
    else s
  if freq ≠ 0 ∧ (freq ≠ s.freq ∨ s.free_run_mode ≠ s.timer_mode) then
    { s with freq := freq, min_period := Int.fdiv 1000 freq - 1,
             timer_is_running := true, timer_mode := s.free_run_mode }
  else
    s

/-- `StepperHex.speed` of `src/xystage.py`. -/
def HexStepper.speed (s : HexStepper) (sps : Int) : HexStepper :=
  let s :=
    if s.free_run_mode = 1 ∧ sps < 0 then { s with free_run_mode := -1 }
    else if s.free_run_mode = -1 ∧ sps > 0 then { s with free_run_mode := 1 }
    else s
  let sps :=
    if sps > s.max_sps then s.max_sps
    else if sps < -s.max_sps then -s.max_sps
    else sps
  let s := { s with steps_per_sec := sps }
  s.update_timer ((Int.fdiv 2 s.step_size) * |s.steps_per_sec|)

/-- `StepperHex.target` of `src/xystage.py` (identical logic to
`Stepper.target`). -/
def HexStepper.target (s : HexStepper) (t : Int) : HexStepper :=
  if s.calibrated ∧ t < 0 then { s with target_pos := 0 }
  else if s.calibrated ∧ 2 * t > s.max_pos then { s with target_pos := s.max_pos }
  else { s with target_pos := 2 * t }

/-- `StepperHex.overwrite_pos` of `src/xystage.py`. -/
def HexStepper.overwrite_pos (s : HexStepper) (p : Int) : HexStepper :=
  { s with pos := 2 * p }

/-- `StepperHex._hit_endstop` of `src/xystage.py` (identical logic to
`Stepper._hit_endstop`). -/
def HexStepper.hit_endstop (s : HexStepper) (pinVal : Int) : HexStepper :=
  if pinVal = 0 then
    let s := if ¬s.calibrated then { s with calibrated := true } else s
    if s.free_run_mode < 0 then
      (s.speed 0).overwrite_pos 0
    else if s.free_run_mode = 0 ∧ s.target_pos < s.pos then
      s.speed 0
    else
      s
  else
    s

/-! ### Derived predicates used to state the claims -/

/-- The hard end-stop/position clamp condition of `Stepper.speed` in
`src/app.py`: a positive request at or beyond `_max_pos` when calibrated,
or a non-positive request with the end-stop pin low or the calibrated
position at or below `0`.  On this condition the method stores speed `0`
directly, skipping the acceleration limiter. -/
def AppStepper.hardClamp (s : AppStepper) (sps stopPin : Int) : Prop :=
  (sps > 0 ∧ s.calibrated = true ∧ s.pos ≥ s.max_pos) ∨
  (¬sps > 0 ∧ (stopPin = 0 ∨ (s.calibrated = true ∧ s.pos ≤ 0)))

instance (s : AppStepper) (sps stopPin : Int) : Decidable (s.hardClamp sps stopPin) := by
  unfold AppStepper.hardClamp; infer_instance

/-- The acceleration-limiter condition of `Stepper.speed` in
`src/app.py`: after clamping the request to `±_max_sps`, the change from
the current `_steps_per_sec` exceeds `_max_sps_change` in either
direction. -/
def AppStepper.accelLimited (s : AppStepper) (sps : Int) : Prop :=
  let r := if sps > 0 then (if sps > s.max_sps then s.max_sps else sps)
           else (if sps < -s.max_sps then -s.max_sps else sps)
  r - s.steps_per_sec > s.max_sps_change ∨ r - s.steps_per_sec < -s.max_sps_change

instance (s : AppStepper) (sps : Int) : Decidable (s.accelLimited sps) := by
  unfold AppStepper.accelLimited; infer_instance

/-- The commanded-speed wellformedness invariant of the `app.py` axis:
the acceleration step is nonnegative and the commanded speed lies in
`[-_max_sps, _max_sps]`. -/
def AppStepper.SpeedOK (s : AppStepper) : Prop :=
  0 ≤ s.max_sps_change ∧ -s.max_sps ≤ s.steps_per_sec ∧ s.steps_per_sec ≤ s.max_sps

/-- The commanded-speed wellformedness invariant of the `xystage.py`
axis: the commanded speed lies in `[-_max_sps, _max_sps]`. -/
def XYStepper.SpeedOK (s : XYStepper) : Prop :=
  -s.max_sps ≤ s.steps_per_sec ∧ s.steps_per_sec ≤ s.max_sps

/-! ### Field-preservation helper lemmas

`_update_timer` only touches `_freq` and the timer bookkeeping; `speed`
additionally touches `_steps_per_sec` and `_free_run_mode`.  These
projection lemmas let the later proofs reason about one field at a
time. -/

@[simp] theorem AppStepper.app_update_timer_steps (s : AppStepper) (f : Int) :
    (s.update_timer f).steps_per_sec = s.steps_per_sec := by
  unfold AppStepper.update_timer; split_ifs <;> rfl

@[simp] theorem AppStepper.app_update_timer_pos (s : AppStepper) (f : Int) :
    (s.update_timer f).pos = s.pos := by
  unfold AppStepper.update_timer; split_ifs <;> rfl

@[simp] theorem AppStepper.app_update_timer_calibrated (s : AppStepper) (f : Int) :
    (s.update_timer f).calibrated = s.calibrated := by
  unfold AppStepper.update_timer; split_ifs <;> rfl

@[simp] theorem AppStepper.app_update_timer_max_sps (s : AppStepper) (f : Int) :
    (s.update_timer f).max_sps = s.max_sps := by
  unfold AppStepper.update_timer; split_ifs <;> rfl

@[simp] theorem AppStepper.update_timer_max_sps_change (s : AppStepper) (f : Int) :
    (s.update_timer f).max_sps_change = s.max_sps_change := by
  unfold AppStepper.update_timer; split_ifs <;> rfl

@[simp] theorem AppStepper.app_update_timer_max_pos (s : AppStepper) (f : Int) :
    (s.update_timer f).max_pos = s.max_pos := by
  unfold AppStepper.update_timer; split_ifs <;> rfl

@[simp] theorem AppStepper.app_update_timer_enabled (s : AppStepper) (f : Int) :
    (s.update_timer f).enabled = s.enabled := by
  unfold AppStepper.update_timer; split_ifs <;> rfl

theorem AppStepper.app_speed_pos (s : AppStepper) (sps stopPin : Int) :
    (s.speed sps stopPin).1.pos = s.pos := by
  simp only [AppStepper.speed]; split_ifs <;> simp

theorem AppStepper.app_speed_calibrated (s : AppStepper) (sps stopPin : Int) :
    (s.speed sps stopPin).1.calibrated = s.calibrated := by
  simp only [AppStepper.speed]; split_ifs <;> simp

theorem AppStepper.app_speed_max_sps (s : AppStepper) (sps stopPin : Int) :
    (s.speed sps stopPin).1.max_sps = s.max_sps := by
  simp only [AppStepper.speed]; split_ifs <;> simp

theorem AppStepper.speed_max_sps_change (s : AppStepper) (sps stopPin : Int) :
    (s.speed sps stopPin).1.max_sps_change = s.max_sps_change := by
  simp only [AppStepper.speed]; split_ifs <;> simp

theorem AppStepper.app_speed_max_pos (s : AppStepper) (sps stopPin : Int) :
    (s.speed sps stopPin).1.max_pos = s.max_pos := by
  simp only [AppStepper.speed]; split_ifs <;> simp

@[simp] theorem XYStepper.xy_update_timer_steps (s : XYStepper) (f : Int) :
    (s.update_timer f).steps_per_sec = s.steps_per_sec := by
  simp only [XYStepper.update_timer]; split_ifs <;> rfl

@[simp] theorem XYStepper.xy_update_timer_pos (s : XYStepper) (f : Int) :
    (s.update_timer f).pos = s.pos := by
  simp only [XYStepper.update_timer]; split_ifs <;> rfl

@[simp] theorem XYStepper.xy_update_timer_calibrated (s : XYStepper) (f : Int) :
    (s.update_timer f).calibrated = s.calibrated := by
  simp only [XYStepper.update_timer]; split_ifs <;> rfl

@[simp] theorem XYStepper.xy_update_timer_target_pos (s : XYStepper) (f : Int) :
    (s.update_timer f).target_pos = s.target_pos := by
  simp only [XYStepper.update_timer]; split_ifs <;> rfl

@[simp] theorem XYStepper.xy_update_timer_max_sps (s : XYStepper) (f : Int) :
    (s.update_timer f).max_sps = s.max_sps := by
  simp only [XYStepper.update_timer]; split_ifs <;> rfl

@[simp] theorem XYStepper.xy_update_timer_max_pos (s : XYStepper) (f : Int) :
    (s.update_timer f).max_pos = s.max_pos := by
  simp only [XYStepper.update_timer]; split_ifs <;> rfl

@[simp] theorem XYStepper.update_timer_free_run_mode (s : XYStepper) (f : Int) :
    (s.update_timer f).free_run_mode = s.free_run_mode := by
  simp only [XYStepper.update_timer]; split_ifs <;> rfl

@[simp] theorem XYStepper.update_timer_step_size (s : XYStepper) (f : Int) :
    (s.update_timer f).step_size = s.step_size := by
  simp only [XYStepper.update_timer]; split_ifs <;> rfl

@[simp] theorem XYStepper.xy_update_timer_enabled (s : XYStepper) (f : Int) :
    (s.update_timer f).enabled = s.enabled := by
  simp only [XYStepper.update_timer]; split_ifs <;> rfl

theorem XYStepper.xy_speed_pos (s : XYStepper) (sps : Int) :
    (s.speed sps).pos = s.pos := by
  simp only [XYStepper.speed]; split_ifs <;> simp

theorem XYStepper.xy_speed_calibrated (s : XYStepper) (sps : Int) :
    (s.speed sps).calibrated = s.calibrated := by
  simp only [XYStepper.speed]; split_ifs <;> simp

theorem XYStepper.xy_speed_target_pos (s : XYStepper) (sps : Int) :
    (s.speed sps).target_pos = s.target_pos := by
  simp only [XYStepper.speed]; split_ifs <;> simp

theorem XYStepper.xy_speed_max_sps (s : XYStepper) (sps : Int) :
    (s.speed sps).max_sps = s.max_sps := by
  simp only [XYStepper.speed]; split_ifs <;> simp

theorem XYStepper.xy_speed_max_pos (s : XYStepper) (sps : Int) :
    (s.speed sps).max_pos = s.max_pos := by
  simp only [XYStepper.speed]; split_ifs <;> simp

/-- The clamp performed by `XYStepper.speed` stores exactly the request
limited to `[-max_sps, max_sps]` (no acceleration limiting). -/
theorem XYStepper.xy_speed_steps_per_sec (s : XYStepper) (sps : Int)
    (hmax : 0 ≤ s.max_sps) :
    (s.speed sps).steps_per_sec = max (-s.max_sps) (min sps s.max_sps) := by
  simp only [XYStepper.speed]; split_ifs <;> simp_all <;> omega

@[simp] theorem HexStepper.hex_update_timer_steps (s : HexStepper) (f : Int) :
    (s.update_timer f).steps_per_sec = s.steps_per_sec := by
  simp only [HexStepper.update_timer]; split_ifs <;> rfl

@[simp] theorem HexStepper.hex_update_timer_pos (s : HexStepper) (f : Int) :
    (s.update_timer f).pos = s.pos := by
  simp only [HexStepper.update_timer]; split_ifs <;> rfl

@[simp] theorem HexStepper.hex_update_timer_calibrated (s : HexStepper) (f : Int) :
    (s.update_timer f).calibrated = s.calibrated := by
  simp only [HexStepper.update_timer]; split_ifs <;> rfl

@[simp] theorem HexStepper.hex_update_timer_target_pos (s : HexStepper) (f : Int) :
    (s.update_timer f).target_pos = s.target_pos := by
  simp only [HexStepper.update_timer]; split_ifs <;> rfl

@[simp] theorem HexStepper.hex_update_timer_max_pos (s : HexStepper) (f : Int) :
    (s.update_timer f).max_pos = s.max_pos := by
  simp only [HexStepper.update_timer]; split_ifs <;> rfl

theorem HexStepper.hex_speed_pos (s : HexStepper) (sps : Int) :
    (s.speed sps).pos = s.pos := by
  simp only [HexStepper.speed]; split_ifs <;> simp

theorem HexStepper.hex_speed_calibrated (s : HexStepper) (sps : Int) :
    (s.speed sps).calibrated = s.calibrated := by
  simp only [HexStepper.speed]; split_ifs <;> simp

theorem HexStepper.hex_speed_target_pos (s : HexStepper) (sps : Int) :
    (s.speed sps).target_pos = s.target_pos := by
  simp only [HexStepper.speed]; split_ifs <;> simp

theorem HexStepper.hex_speed_steps_per_sec (s : HexStepper) (sps : Int)
    (hmax : 0 ≤ s.max_sps) :
    (s.speed sps).steps_per_sec = max (-s.max_sps) (min sps s.max_sps) := by
  simp only [HexStepper.speed]; split_ifs <;> simp_all <;> omega

/-- `speedCalc` only reads fields that a free-run-mode update leaves
unchanged. -/
theorem AppStepper.speedCalc_flip (s : AppStepper) (v sps stopPin : Int) :
    ({ s with free_run_mode := v } : AppStepper).speedCalc sps stopPin =
      s.speedCalc sps stopPin := rfl

/-- The commanded speed stored by `speed` is the first component of
`speedCalc`. -/
theorem AppStepper.speed_steps (s : AppStepper) (sps stopPin : Int) :
    (s.speed sps stopPin).1.steps_per_sec = (s.speedCalc sps stopPin).1 := by
  simp only [AppStepper.speed]
  split_ifs <;> simp [AppStepper.speedCalc_flip]

/-- The `speed_change_limited` flag returned by `speed` is the second
component of `speedCalc`. -/
theorem AppStepper.speed_flag (s : AppStepper) (sps stopPin : Int) :
    (s.speed sps stopPin).2 = (s.speedCalc sps stopPin).2 := by
  simp only [AppStepper.speed]
  split_ifs <;> simp [AppStepper.speedCalc_flip]

/-! ### Claim theorems -/

/-- C5: for a calibrated `app.py` axis whose position is at or beyond the
limit in the direction of a requested speed (`pos ≥ max_pos` for a
positive request, `pos ≤ 0` for a negative one), `Stepper.speed` stores
a commanded speed of exactly `0`, regardless of the acceleration limiter
and of the previous commanded speed. -/
theorem C5_hard_position_clamp (s : AppStepper) (sps stopPin : Int)
    (hcal : s.calibrated = true) :
    (sps > 0 → s.pos ≥ s.max_pos → (s.speed sps stopPin).1.steps_per_sec = 0) ∧
    (sps < 0 → s.pos ≤ 0 → (s.speed sps stopPin).1.steps_per_sec = 0) := by
  constructor <;> intro h1 h2 <;> rw [AppStepper.speed_steps] <;>
    unfold AppStepper.speedCalc <;> split_ifs <;> simp_all <;> omega

/-- Witness for C5 on concrete data: a calibrated axis at position `0`
(given as an explicit state, since `app.py` itself can never calibrate —
its end-stop handler dies on the missing `_settings` attribute) stores
speed `0` for a negative request. -/
theorem C5_witness :
    (({ AppStepper.init true 35200 3100 with
        calibrated := true } : AppStepper).speed (-5) 1).1.steps_per_sec = 0 :=
  (C5_hard_position_clamp
    { AppStepper.init true 35200 3100 with calibrated := true } (-5) 1
    (by decide)).2 (by decide) (by decide)

/-- C8: `Stepper.target` and `StepperHex.target` of `src/xystage.py`
clamp the stored target into `[0, _max_pos]` (half steps; the requested
full-step target `t` is stored as `2*t`) exactly when the axis is
calibrated; before calibration the requested target is stored without
any limit being enforced, for every requested value. -/
theorem C8_target_clamped_iff_calibrated (x : XYStepper) (hx : HexStepper) (t : Int) :
    (x.calibrated = true → 0 ≤ x.max_pos →
      (x.target t).target_pos = max 0 (min (2 * t) x.max_pos)) ∧
    (x.calibrated = false → (x.target t).target_pos = 2 * t) ∧
    (hx.calibrated = true → 0 ≤ hx.max_pos →
      (hx.target t).target_pos = max 0 (min (2 * t) hx.max_pos)) ∧
    (hx.calibrated = false → (hx.target t).target_pos = 2 * t) := by
  unfold XYStepper.target HexStepper.target
  refine ⟨fun h1 h2 => ?_, fun h1 => ?_, fun h1 h2 => ?_, fun h1 => ?_⟩ <;>
    split_ifs <;> simp_all <;> omega

/-- Witness for C8 on concrete data: a calibrated axis clamps an
over-range target to `_max_pos`, an uncalibrated `StepperHex` stores a
negative target unclamped. -/
theorem C8_witness :
    ((((XYStepper.init 1 50 200 3100).hit_endstop 0).target 99999).target_pos =
      max 0 (min (2 * 99999) ((XYStepper.init 1 50 200 3100).hit_endstop 0).max_pos)) ∧
    (({ phase := 0, calibrated := false, timer_is_running := false, timer_mode := 0,
        free_run_mode := 0, enabled := false, target_pos := 0, pos := 0, max_sps := 200,
        steps_per_sec := 50, max_pos := 6200, freq := 0, min_period := 0,
        step_size := 1 : HexStepper }.target (-7)).target_pos = 2 * (-7)) :=
  ⟨(C8_target_clamped_iff_calibrated ((XYStepper.init 1 50 200 3100).hit_endstop 0)
      { phase := 0, calibrated := false, timer_is_running := false, timer_mode := 0,
        free_run_mode := 0, enabled := false, target_pos := 0, pos := 0, max_sps := 200,
        steps_per_sec := 50, max_pos := 6200, freq := 0, min_period := 0, step_size := 1 }
      99999).1 (by decide) (by decide),
   (C8_target_clamped_iff_calibrated ((XYStepper.init 1 50 200 3100).hit_endstop 0)
      { phase := 0, calibrated := false, timer_is_running := false, timer_mode := 0,
        free_run_mode := 0, enabled := false, target_pos := 0, pos := 0, max_sps := 200,
        steps_per_sec := 50, max_pos := 6200, freq := 0, min_period := 0, step_size := 1 }
      (-7)).2.2.2 (by decide)⟩

/-- C10: an end-stop interrupt whose double-check reads the pin nonzero
(false alarm) leaves the complete axis state unchanged, in all three
stepper classes (`app.py` `Stepper`, `xystage.py` `Stepper` and
`StepperHex`). -/
theorem C10_false_alarm_is_frame (a : AppStepper) (x : XYStepper) (hx : HexStepper)
    (pinVal : Int) (hpin : pinVal ≠ 0) :
    a.hit_endstop pinVal = a ∧ x.hit_endstop pinVal = x ∧ hx.hit_endstop pinVal = hx := by
  unfold AppStepper.hit_endstop XYStepper.hit_endstop HexStepper.hit_endstop
  simp [hpin]

/-- Witness for C10 on concrete data: a pin reading of `1` leaves the
freshly constructed axes untouched. -/
theorem C10_witness :
    (AppStepper.init true 35200 3100).hit_endstop 1 = AppStepper.init true 35200 3100 ∧
    (XYStepper.init 1 50 200 3100).hit_endstop 1 = XYStepper.init 1 50 200 3100 ∧
    ({ phase := 0, calibrated := false, timer_is_running := false, timer_mode := 0,
       free_run_mode := 0, enabled := false, target_pos := 0, pos := 0, max_sps := 200,
       steps_per_sec := 50, max_pos := 6200, freq := 0, min_period := 0,
       step_size := 1 : HexStepper }).hit_endstop 1 =
      { phase := 0, calibrated := false, timer_is_running := false, timer_mode := 0,
        free_run_mode := 0, enabled := false, target_pos := 0, pos := 0, max_sps := 200,
        steps_per_sec := 50, max_pos := 6200, freq := 0, min_period := 0, step_size := 1 } :=
  C10_false_alarm_is_frame (AppStepper.init true 35200 3100) (XYStepper.init 1 50 200 3100)
    { phase := 0, calibrated := false, timer_is_running := false, timer_mode := 0,
      free_run_mode := 0, enabled := false, target_pos := 0, pos := 0, max_sps := 200,
      steps_per_sec := 50, max_pos := 6200, freq := 0, min_period := 0, step_size := 1 }
    1 (by decide)

set_option maxRecDepth 4000 in
/-- C6 fails on the code: from a commanded speed already at `_max_sps`
(35200, reachable by ten accelerating calls), a request of 40000 is
clamped by the maximum-speed limit (stored 35200 ≠ 40000) yet
`Stepper.speed` returns `false` — the flag does not report max-speed
clamping, only acceleration limiting. -/
theorem C6_counterexample :
    (((AppStepper.run (AppStepper.init true 35200 3100)
        (List.replicate 10 (AppOp.speedOp 35200 1))).speed 40000 1).1.steps_per_sec = 35200) ∧
    (AppStepper.run (AppStepper.init true 35200 3100)
        (List.replicate 10 (AppOp.speedOp 35200 1))).max_sps = 35200 ∧
    (((AppStepper.run (AppStepper.init true 35200 3100)
        (List.replicate 10 (AppOp.speedOp 35200 1))).speed 40000 1).1.steps_per_sec ≠ 40000) ∧
    (((AppStepper.run (AppStepper.init true 35200 3100)
        (List.replicate 10 (AppOp.speedOp 35200 1))).speed 40000 1).2 = false) := by
  decide

/-- C6 (amended): the boolean returned by `Stepper.speed` of `src/app.py`
is `true` exactly when the acceleration limiter modified the applied
speed — i.e. when the hard end-stop/position clamp did not fire and the
max-speed-clamped request differs from the previous commanded speed by
more than `_max_sps_change`.  Clamping by the maximum-speed limit alone
returns `false`. -/
theorem C6_flag_iff_accel_limited (s : AppStepper) (sps stopPin : Int) :
    (s.speed sps stopPin).2 = true ↔
      (¬s.hardClamp sps stopPin ∧ s.accelLimited sps) := by
  rw [AppStepper.speed_flag]
  unfold AppStepper.speedCalc AppStepper.hardClamp AppStepper.accelLimited
  split_ifs <;> simp_all <;> split_ifs <;> simp_all

/-- C2 fails on the code: from a reachable (never-calibrated) state with
commanded speed 7040, a request of `-1` while the end-stop pin reads low
takes the hard clamp path of `Stepper.speed` and stores 0 — a change of
7040, far above `_max_sps_change = 3520`.  No calibration is involved:
the `sps <= 0` branch clamps on the live pin reading alone. -/
theorem C2_counterexample :
    ((AppStepper.run (AppStepper.init true 35200 3100)
        [AppOp.speedOp 3520 1, AppOp.speedOp 7040 1]).steps_per_sec = 7040) ∧
    ((AppStepper.run (AppStepper.init true 35200 3100)
        [AppOp.speedOp 3520 1, AppOp.speedOp 7040 1]).max_sps_change = 3520) ∧
    (((AppStepper.run (AppStepper.init true 35200 3100)
        [AppOp.speedOp 3520 1, AppOp.speedOp 7040 1]).speed (-1) 0).1.steps_per_sec = 0) ∧
    ¬(|(((AppStepper.run (AppStepper.init true 35200 3100)
        [AppOp.speedOp 3520 1, AppOp.speedOp 7040 1]).speed (-1) 0).1.steps_per_sec -
       (AppStepper.run (AppStepper.init true 35200 3100)
        [AppOp.speedOp 3520 1, AppOp.speedOp 7040 1]).steps_per_sec)| ≤
      (AppStepper.run (AppStepper.init true 35200 3100)
        [AppOp.speedOp 3520 1, AppOp.speedOp 7040 1]).max_sps_change) := by
  decide

/-- C2 (amended): in `src/app.py`, one call to `Stepper.speed` changes
the stored commanded speed by at most `_max_sps_change` in absolute
value unless the hard end-stop/position clamp fires, in which case the
stored speed is exactly 0; in `src/xystage.py`, `Stepper.speed` applies
no per-call change limit at all — it stores the request clamped to
`[-_max_sps, _max_sps]`. -/
theorem C2_accel_limit_outside_hard_clamp (s : AppStepper) (x : XYStepper)
    (sps stopPin : Int) (hacc : 0 ≤ s.max_sps_change) (hxmax : 0 ≤ x.max_sps) :
    (s.hardClamp sps stopPin → (s.speed sps stopPin).1.steps_per_sec = 0) ∧
    (¬s.hardClamp sps stopPin →
      |(s.speed sps stopPin).1.steps_per_sec - s.steps_per_sec| ≤ s.max_sps_change) ∧
    (x.speed sps).steps_per_sec = max (-x.max_sps) (min sps x.max_sps) := by
  refine ⟨?_, ?_, XYStepper.xy_speed_steps_per_sec x sps hxmax⟩ <;> intro h <;>
    rw [AppStepper.speed_steps] <;>
    unfold AppStepper.speedCalc <;> unfold AppStepper.hardClamp at h <;>
    split_ifs <;> simp_all [abs_le] <;> split_ifs <;> simp_all <;> omega

/-- Witness for C2 (amended) on concrete data: with the end-stop pin
reading low, the hard clamp stores speed 0 on the fresh `app.py` axis,
and `xystage.py` stores a clamped request. -/
theorem C2_witness :
    (((AppStepper.init true 35200 3100).speed (-1) 0).1.steps_per_sec = 0) ∧
    ((XYStepper.init 1 50 200 3100).speed 999).steps_per_sec =
      max (-(200:Int)) (min 999 200) :=
  ⟨(C2_accel_limit_outside_hard_clamp (AppStepper.init true 35200 3100)
      (XYStepper.init 1 50 200 3100) (-1) 0 (by decide) (by decide)).1 (by decide),
   (C2_accel_limit_outside_hard_clamp (AppStepper.init true 35200 3100)
      (XYStepper.init 1 50 200 3100) 999 1 (by decide) (by decide)).2.2⟩

/-- C9 fails on the code: disabling an axis with commanded speed 3520
halts the step clock (`_freq` becomes 0) but leaves `_steps_per_sec`
at 3520 — the commanded speed is not reduced toward zero at all, by the
acceleration limiter or otherwise. -/
theorem C9_counterexample :
    ((AppStepper.run (AppStepper.init true 35200 3100)
        [AppOp.endstopOp 0, AppOp.speedOp 3520 1]).steps_per_sec = 3520) ∧
    (((AppStepper.run (AppStepper.init true 35200 3100)
        [AppOp.endstopOp 0, AppOp.speedOp 3520 1]).enable false).freq = 0) ∧
    (((AppStepper.run (AppStepper.init true 35200 3100)
        [AppOp.endstopOp 0, AppOp.speedOp 3520 1]).enable false).steps_per_sec = 3520) ∧
    ¬(|((AppStepper.run (AppStepper.init true 35200 3100)
        [AppOp.endstopOp 0, AppOp.speedOp 3520 1]).enable false).steps_per_sec| <
      |(AppStepper.run (AppStepper.init true 35200 3100)
        [AppOp.endstopOp 0, AppOp.speedOp 3520 1]).steps_per_sec|) := by
  decide

/-- C9 (amended): `enable(False)` halts the step clock (`_freq = 0`
after the call in `app.py`; the timer is deinitialized in `xystage.py`
whenever it was running) and leaves the stored commanded speed
unchanged — the ramp-down through the acceleration limiter only happens
through later `speed` calls, not inside `enable`. -/
theorem C9_disable_halts_clock_keeps_speed (s : AppStepper) (x : XYStepper) :
    (s.enable false).freq = 0 ∧
    (s.enable false).steps_per_sec = s.steps_per_sec ∧
    (s.enable false).enabled = false ∧
    (x.enable false).steps_per_sec = x.steps_per_sec ∧
    (x.enable false).enabled = false ∧
    (x.timer_is_running = true → (x.enable false).freq = 0) := by
  unfold AppStepper.enable XYStepper.enable AppStepper.update_timer XYStepper.update_timer
  simp only [Bool.false_eq_true, if_false]
  split_ifs <;> simp_all

/-- Witness for C9 (amended) on concrete data. -/
theorem C9_witness :
    (((AppStepper.init true 35200 3100).enable false).freq = 0) ∧
    (((XYStepper.init 1 50 200 3100).enable false).freq = 0) :=
  ⟨(C9_disable_halts_clock_keeps_speed (AppStepper.init true 35200 3100)
      (XYStepper.init 1 50 200 3100)).1,
   (C9_disable_halts_clock_keeps_speed (AppStepper.init true 35200 3100)
      (XYStepper.init 1 50 200 3100)).2.2.2.2.2 (by decide)⟩

theorem XYStepper.overwrite_pos_pos (s : XYStepper) (p : Int) :
    (s.overwrite_pos p).pos = 2 * p := rfl

theorem XYStepper.overwrite_pos_steps (s : XYStepper) (p : Int) :
    (s.overwrite_pos p).steps_per_sec = s.steps_per_sec := rfl

theorem XYStepper.overwrite_pos_calibrated (s : XYStepper) (p : Int) :
    (s.overwrite_pos p).calibrated = s.calibrated := rfl

/-- C3 fails on the code: in `src/xystage.py`, an uncalibrated axis in
tracking mode (`_free_run_mode = 0`, target not below position) with
nonzero position receives a confirmed end-stop hit; afterwards
`calibrated` is true but the position is still `1`, not `0` — the
handler only re-zeroes the position when free-running toward the stop. -/
theorem C3_counterexample :
    ((XYStepper.run (XYStepper.init 1 50 200 3100)
        [XYOp.freeRunOp 1, XYOp.stepOp 1 false, XYOp.trackTargetOp,
         XYOp.targetOp 5]).calibrated = false) ∧
    (((XYStepper.run (XYStepper.init 1 50 200 3100)
        [XYOp.freeRunOp 1, XYOp.stepOp 1 false, XYOp.trackTargetOp,
         XYOp.targetOp 5]).hit_endstop 0).calibrated = true) ∧
    (((XYStepper.run (XYStepper.init 1 50 200 3100)
        [XYOp.freeRunOp 1, XYOp.stepOp 1 false, XYOp.trackTargetOp,
         XYOp.targetOp 5]).hit_endstop 0).pos = 1) ∧
    ¬(((XYStepper.run (XYStepper.init 1 50 200 3100)
        [XYOp.freeRunOp 1, XYOp.stepOp 1 false, XYOp.trackTargetOp,
         XYOp.targetOp 5]).hit_endstop 0).pos = 0) := by
  decide

/-- C3 (amended): in `xystage.py`, a confirmed end-stop hit on an
uncalibrated axis sets `calibrated` within the single handler
invocation; position and speed are zeroed only when free-running toward
the stop (`_free_run_mode < 0`), and in tracking mode with the target
below the position only the speed is zeroed, the position keeping its
value.  In `app.py` the handler performs no state change at all: the
pin-low branch raises `AttributeError` on the missing `_settings`
attribute before any assignment, so `calibrated`, position and speed all
keep their prior values (the dead code below the guard matches the
claim's wording). -/
theorem C3_first_endstop_calibrates (s : AppStepper) (x : XYStepper)
    (hx : x.calibrated = false) (hxmax : 0 ≤ x.max_sps) :
    (s.hit_endstop 0 = s) ∧
    ((x.hit_endstop 0).calibrated = true ∧
      (x.free_run_mode < 0 →
        (x.hit_endstop 0).pos = 0 ∧ (x.hit_endstop 0).steps_per_sec = 0) ∧
      (x.free_run_mode = 0 → x.target_pos < x.pos →
        (x.hit_endstop 0).steps_per_sec = 0 ∧ (x.hit_endstop 0).pos = x.pos)) := by
  constructor
  · simp only [AppStepper.hit_endstop]
    split_ifs <;> rfl
  · unfold XYStepper.hit_endstop
    simp only [hx]
    split_ifs <;>
      simp_all [XYStepper.xy_speed_calibrated, XYStepper.xy_speed_pos,
        XYStepper.overwrite_pos_pos, XYStepper.overwrite_pos_steps,
        XYStepper.overwrite_pos_calibrated, XYStepper.xy_speed_steps_per_sec] <;>
      omega

/-- Witness for C3 (amended) on concrete data: the first confirmed hit
calibrates the fresh `xystage.py` axis, and leaves the fresh `app.py`
axis untouched. -/
theorem C3_witness :
    (AppStepper.init true 35200 3100).hit_endstop 0 = AppStepper.init true 35200 3100 ∧
    ((XYStepper.init 1 50 200 3100).hit_endstop 0).calibrated = true :=
  ⟨(C3_first_endstop_calibrates (AppStepper.init true 35200 3100)
      (XYStepper.init 1 50 200 3100) (by decide) (by decide)).1,
   (C3_first_endstop_calibrates (AppStepper.init true 35200 3100)
      (XYStepper.init 1 50 200 3100) (by decide) (by decide)).2.1⟩

/-- C4 fails on the code: in `src/xystage.py`, an already-calibrated
axis free-running toward the stop (`_free_run_mode = -1`) at position 1
receives a confirmed end-stop hit; the handler re-zeroes the position
(`overwrite_pos(0)`), so the stored position changes from 1 to 0,
contradicting the claimed "no re-zeroing". -/
theorem C4_counterexample :
    ((XYStepper.run (XYStepper.init 1 50 200 3100)
        [XYOp.freeRunOp (-1), XYOp.endstopOp 0, XYOp.speedOp 60, XYOp.stepOp 1 false,
         XYOp.speedOp (-60)]).calibrated = true) ∧
    ((XYStepper.run (XYStepper.init 1 50 200 3100)
        [XYOp.freeRunOp (-1), XYOp.endstopOp 0, XYOp.speedOp 60, XYOp.stepOp 1 false,
         XYOp.speedOp (-60)]).free_run_mode = -1) ∧
    ((XYStepper.run (XYStepper.init 1 50 200 3100)
        [XYOp.freeRunOp (-1), XYOp.endstopOp 0, XYOp.speedOp 60, XYOp.stepOp 1 false,
         XYOp.speedOp (-60)]).pos = 1) ∧
    (((XYStepper.run (XYStepper.init 1 50 200 3100)
        [XYOp.freeRunOp (-1), XYOp.endstopOp 0, XYOp.speedOp 60, XYOp.stepOp 1 false,
         XYOp.speedOp (-60)]).hit_endstop 0).pos = 0) ∧
    ¬(((XYStepper.run (XYStepper.init 1 50 200 3100)
        [XYOp.freeRunOp (-1), XYOp.endstopOp 0, XYOp.speedOp 60, XYOp.stepOp 1 false,
         XYOp.speedOp (-60)]).hit_endstop 0).pos =
      (XYStepper.run (XYStepper.init 1 50 200 3100)
        [XYOp.freeRunOp (-1), XYOp.endstopOp 0, XYOp.speedOp 60, XYOp.stepOp 1 false,
         XYOp.speedOp (-60)]).pos) := by
  decide

/-- C4 (amended): on a calibrated axis a confirmed end-stop hit behaves
as follows.  `xystage.py`: free-running toward the stop the speed is
zeroed AND the position is re-zeroed to 0; tracking with the target
below the position the speed is zeroed and the position is untouched;
in every other mode the whole state is unchanged.  `app.py`: the handler
leaves the entire state unchanged regardless of direction — its pin-low
branch raises `AttributeError` on the missing `_settings` attribute
before reaching `speed(0)`, so not even the commanded speed is zeroed
(the axis only stops via the hard clamp inside later `speed()` calls,
which read the end-stop pin directly). -/
theorem C4_calibrated_endstop_behaviour (s : AppStepper) (x : XYStepper)
    (hs : s.calibrated = true) (hx : x.calibrated = true) (hxmax : 0 ≤ x.max_sps) :
    (s.hit_endstop 0 = s) ∧
    ((x.free_run_mode < 0 →
        (x.hit_endstop 0).steps_per_sec = 0 ∧ (x.hit_endstop 0).pos = 0) ∧
      (x.free_run_mode > 0 → x.hit_endstop 0 = x) ∧
      (x.free_run_mode = 0 → x.target_pos < x.pos →
        (x.hit_endstop 0).steps_per_sec = 0 ∧ (x.hit_endstop 0).pos = x.pos) ∧
      (x.free_run_mode = 0 → ¬x.target_pos < x.pos → x.hit_endstop 0 = x)) := by
  constructor
  · simp only [AppStepper.hit_endstop]
    split_ifs <;> rfl
  · unfold XYStepper.hit_endstop
    simp only [hx]
    split_ifs <;>
      simp_all [XYStepper.xy_speed_calibrated, XYStepper.xy_speed_pos,
        XYStepper.overwrite_pos_pos, XYStepper.overwrite_pos_steps,
        XYStepper.overwrite_pos_calibrated, XYStepper.xy_speed_steps_per_sec] <;>
      omega

/-- Witness for C4 (amended) on concrete data: a calibrated stationary
`xystage.py` axis is untouched by a confirmed hit, and the `app.py`
handler leaves an (explicitly) calibrated axis untouched. -/
theorem C4_witness :
    ({ AppStepper.init true 35200 3100 with
        calibrated := true } : AppStepper).hit_endstop 0 =
      { AppStepper.init true 35200 3100 with calibrated := true } ∧
    ((XYStepper.init 1 50 200 3100).hit_endstop 0).hit_endstop 0 =
      (XYStepper.init 1 50 200 3100).hit_endstop 0 :=
  ⟨(C4_calibrated_endstop_behaviour
      { AppStepper.init true 35200 3100 with calibrated := true }
      ((XYStepper.init 1 50 200 3100).hit_endstop 0)
      (by decide) (by decide) (by decide)).1,
   (C4_calibrated_endstop_behaviour
      { AppStepper.init true 35200 3100 with calibrated := true }
      ((XYStepper.init 1 50 200 3100).hit_endstop 0)
      (by decide) (by decide) (by decide)).2.2.2.2 (by decide) (by decide)⟩

/-! ### Invariant-preservation lemmas for the speed bound -/

theorem AppStepper.speedCalc_bounds (s : AppStepper) (sps stopPin : Int)
    (h : s.SpeedOK) :
    -s.max_sps ≤ (s.speedCalc sps stopPin).1 ∧ (s.speedCalc sps stopPin).1 ≤ s.max_sps := by
  obtain ⟨h1, h2, h3⟩ := h
  unfold AppStepper.speedCalc
  split_ifs <;> (try simp_all) <;> (try omega) <;>
    (split_ifs <;> simp_all) <;> omega

theorem AppStepper.app_speed_SpeedOK (s : AppStepper) (sps stopPin : Int)
    (h : s.SpeedOK) : (s.speed sps stopPin).1.SpeedOK := by
  obtain ⟨hb1, hb2⟩ := AppStepper.speedCalc_bounds s sps stopPin h
  refine ⟨?_, ?_, ?_⟩
  · rw [AppStepper.speed_max_sps_change]; exact h.1
  · rw [AppStepper.speed_steps, AppStepper.app_speed_max_sps]; exact hb1
  · rw [AppStepper.speed_steps, AppStepper.app_speed_max_sps]; exact hb2

theorem AppStepper.get_pos_SpeedOK (s : AppStepper) (delta : Int)
    (h : s.SpeedOK) : (s.get_pos delta).2.SpeedOK := by
  simp only [AppStepper.get_pos]
  split_ifs <;> exact h

theorem AppStepper.app_hit_endstop_SpeedOK (s : AppStepper) (pinVal : Int)
    (h : s.SpeedOK) : (s.hit_endstop pinVal).SpeedOK := by
  simp only [AppStepper.hit_endstop]
  split_ifs <;> exact h

theorem AppStepper.app_update_timer_SpeedOK (s : AppStepper) (f : Int)
    (h : s.SpeedOK) : (s.update_timer f).SpeedOK :=
  ⟨by simpa using h.1, by simpa using h.2.1, by simpa using h.2.2⟩

theorem AppStepper.app_enable_SpeedOK (s : AppStepper) (e : Bool)
    (h : s.SpeedOK) : (s.enable e).SpeedOK := by
  simp only [AppStepper.enable]
  split_ifs <;> first
    | exact AppStepper.app_update_timer_SpeedOK _ _ h
    | exact h

theorem AppStepper.app_apply_pres (s : AppStepper) (op : AppOp)
    (h : s.SpeedOK) : (s.apply op).SpeedOK ∧ (s.apply op).max_sps = s.max_sps := by
  cases op with
  | speedOp sps stopPin =>
    exact ⟨AppStepper.app_speed_SpeedOK s sps stopPin h, AppStepper.app_speed_max_sps s sps stopPin⟩
  | getPosOp delta =>
    refine ⟨AppStepper.get_pos_SpeedOK s delta h, ?_⟩
    show (s.get_pos delta).2.max_sps = s.max_sps
    simp only [AppStepper.get_pos]
    split_ifs <;> rfl
  | endstopOp pinVal =>
    refine ⟨AppStepper.app_hit_endstop_SpeedOK s pinVal h, ?_⟩
    show (s.hit_endstop pinVal).max_sps = s.max_sps
    simp only [AppStepper.hit_endstop]
    split_ifs <;> rfl
  | enableOp e =>
    refine ⟨AppStepper.app_enable_SpeedOK s e h, ?_⟩
    show (s.enable e).max_sps = s.max_sps
    simp only [AppStepper.enable]
    split_ifs <;> simp
  | stopOp =>
    exact ⟨AppStepper.app_update_timer_SpeedOK s 0 h, AppStepper.app_update_timer_max_sps s 0⟩

theorem AppStepper.app_run_pres (ops : List AppOp) : ∀ (s : AppStepper), s.SpeedOK →
    (s.run ops).SpeedOK ∧ (s.run ops).max_sps = s.max_sps := by
  induction ops with
  | nil => exact fun s h => ⟨h, rfl⟩
  | cons op ops ih =>
    intro s h
    obtain ⟨h1, h2⟩ := AppStepper.app_apply_pres s op h
    obtain ⟨h3, h4⟩ := ih (s.apply op) h1
    exact ⟨h3, h4.trans h2⟩

theorem AppStepper.app_init_SpeedOK (rev : Bool) (max_sps max_pos : Int)
    (h : 0 ≤ max_sps) : (AppStepper.init rev max_sps max_pos).SpeedOK := by
  refine ⟨Int.tdiv_nonneg h (by norm_num), ?_, ?_⟩ <;> simp [AppStepper.init] <;> omega

theorem XYStepper.xy_speed_SpeedOK (s : XYStepper) (sps : Int)
    (h : s.SpeedOK) : (s.speed sps).SpeedOK := by
  have hm : 0 ≤ s.max_sps := by obtain ⟨h1, h2⟩ := h; omega
  constructor <;>
    rw [XYStepper.xy_speed_steps_per_sec s sps hm, XYStepper.xy_speed_max_sps] <;> omega

theorem XYStepper.xy_update_timer_SpeedOK (s : XYStepper) (f : Int)
    (h : s.SpeedOK) : (s.update_timer f).SpeedOK :=
  ⟨by simpa using h.1, by simpa using h.2⟩

theorem XYStepper.step_SpeedOK (s : XYStepper) (d : Int) (g : Bool)
    (h : s.SpeedOK) : (s.step d g).SpeedOK := by
  simp only [XYStepper.step]
  split_ifs <;> first
    | exact XYStepper.xy_speed_SpeedOK _ 0 h
    | exact h

theorem XYStepper.xy_hit_endstop_SpeedOK (s : XYStepper) (pinVal : Int)
    (h : s.SpeedOK) : (s.hit_endstop pinVal).SpeedOK := by
  simp only [XYStepper.hit_endstop]
  split_ifs <;> first
    | exact XYStepper.xy_speed_SpeedOK _ 0 h
    | exact h

theorem XYStepper.free_run_SpeedOK (s : XYStepper) (d : Int)
    (h : s.SpeedOK) : (s.free_run d).SpeedOK := by
  simp only [XYStepper.free_run]
  split_ifs <;> first
    | exact XYStepper.xy_update_timer_SpeedOK _ _ h
    | exact h

theorem XYStepper.track_target_SpeedOK (s : XYStepper)
    (h : s.SpeedOK) : s.track_target.SpeedOK :=
  XYStepper.xy_update_timer_SpeedOK _ _ h

theorem XYStepper.xy_enable_SpeedOK (s : XYStepper) (e : Bool)
    (h : s.SpeedOK) : (s.enable e).SpeedOK := by
  simp only [XYStepper.enable]
  split_ifs <;> first
    | exact XYStepper.xy_update_timer_SpeedOK _ _ h
    | exact h

theorem XYStepper.xy_apply_pres (s : XYStepper) (op : XYOp)
    (h : s.SpeedOK) : (s.apply op).SpeedOK ∧ (s.apply op).max_sps = s.max_sps := by
  cases op with
  | speedOp sps =>
    exact ⟨XYStepper.xy_speed_SpeedOK s sps h, XYStepper.xy_speed_max_sps s sps⟩
  | targetOp t =>
    constructor
    · show (s.target t).SpeedOK
      unfold XYStepper.target; split_ifs <;> exact h
    · show (s.target t).max_sps = s.max_sps
      unfold XYStepper.target; split_ifs <;> rfl
  | overwritePosOp p => exact ⟨h, rfl⟩
  | stepOp d g =>
    refine ⟨XYStepper.step_SpeedOK s d g h, ?_⟩
    show (s.step d g).max_sps = s.max_sps
    simp only [XYStepper.step]
    split_ifs <;> simp [XYStepper.xy_speed_max_sps]
  | endstopOp pinVal =>
    refine ⟨XYStepper.xy_hit_endstop_SpeedOK s pinVal h, ?_⟩
    show (s.hit_endstop pinVal).max_sps = s.max_sps
    simp only [XYStepper.hit_endstop]
    split_ifs <;> simp [XYStepper.xy_speed_max_sps, XYStepper.overwrite_pos]
  | freeRunOp d =>
    refine ⟨XYStepper.free_run_SpeedOK s d h, ?_⟩
    show (s.free_run d).max_sps = s.max_sps
    simp only [XYStepper.free_run]
    split_ifs <;> simp
  | trackTargetOp =>
    exact ⟨XYStepper.track_target_SpeedOK s h, by
      show s.track_target.max_sps = s.max_sps
      simp only [XYStepper.track_target]; simp⟩
  | stepSizeOp sz =>
    exact ⟨h, rfl⟩
  | enableOp e =>
    refine ⟨XYStepper.xy_enable_SpeedOK s e h, ?_⟩
    show (s.enable e).max_sps = s.max_sps
    simp only [XYStepper.enable]
    split_ifs <;> simp
  | stopOp =>
    exact ⟨XYStepper.xy_update_timer_SpeedOK s 0 h, XYStepper.xy_update_timer_max_sps s 0⟩

theorem XYStepper.xy_run_pres (ops : List XYOp) : ∀ (s : XYStepper), s.SpeedOK →
    (s.run ops).SpeedOK ∧ (s.run ops).max_sps = s.max_sps := by
  induction ops with
  | nil => exact fun s h => ⟨h, rfl⟩
  | cons op ops ih =>
    intro s h
    obtain ⟨h1, h2⟩ := XYStepper.xy_apply_pres s op h
    obtain ⟨h3, h4⟩ := ih (s.apply op) h1
    exact ⟨h3, h4.trans h2⟩

theorem XYStepper.xy_init_SpeedOK (step_size speed_sps max_sps max_pos : Int)
    (h1 : -max_sps ≤ speed_sps) (h2 : speed_sps ≤ max_sps) :
    (XYStepper.init step_size speed_sps max_sps max_pos).SpeedOK := by
  refine XYStepper.track_target_SpeedOK _ ⟨?_, ?_⟩ <;> simpa using by omega

/-- C7: the invariant `|commandedSpeed| ≤ maxSpeed` holds after every
sequence of operations (speed setting, position query / step, end-stop
handler, enable/disable, target and mode changes) from the initial axis
state, for both stepper classes — given a nonnegative `max_sps` and, for
`xystage.py`, an initial `speed_sps` within the limit (the defaults
35200 resp. 200/50 satisfy this). -/
theorem C7_speed_invariant (rev : Bool)
    (max_sps max_pos step_size speed_sps xmax_sps xmax_pos : Int)
    (ops : List AppOp) (xops : List XYOp)
    (h1 : 0 ≤ max_sps) (h2 : -xmax_sps ≤ speed_sps) (h3 : speed_sps ≤ xmax_sps) :
    |(AppStepper.run (AppStepper.init rev max_sps max_pos) ops).steps_per_sec| ≤ max_sps ∧
    |(XYStepper.run (XYStepper.init step_size speed_sps xmax_sps xmax_pos)
        xops).steps_per_sec| ≤ xmax_sps := by
  constructor
  · obtain ⟨⟨hc, hlo, hhi⟩, hmax⟩ :=
      AppStepper.app_run_pres ops (AppStepper.init rev max_sps max_pos)
        (AppStepper.app_init_SpeedOK rev max_sps max_pos h1)
    rw [abs_le]
    constructor <;> simp_all [AppStepper.init]
  · obtain ⟨⟨hlo, hhi⟩, hmax⟩ :=
      XYStepper.xy_run_pres xops (XYStepper.init step_size speed_sps xmax_sps xmax_pos)
        (XYStepper.xy_init_SpeedOK step_size speed_sps xmax_sps xmax_pos h2 h3)
    rw [abs_le]
    have : (XYStepper.init step_size speed_sps xmax_sps xmax_pos).max_sps = xmax_sps := by
      simp [XYStepper.init, XYStepper.track_target]
    constructor <;> omega

/-- Witness for C7 on concrete data: an over-limit request on each
freshly constructed axis keeps the commanded speed within the limit. -/
theorem C7_witness :
    |(AppStepper.run (AppStepper.init true 35200 3100)
        [AppOp.speedOp 99999 1]).steps_per_sec| ≤ 35200 ∧
    |(XYStepper.run (XYStepper.init 1 50 200 3100)
        [XYOp.speedOp 99999]).steps_per_sec| ≤ 200 :=
  C7_speed_invariant true 35200 3100 1 50 200 3100
    [AppOp.speedOp 99999 1] [XYOp.speedOp 99999] (by decide) (by decide) (by decide)

/-! ### Calibration is unreachable in `app.py` -/

theorem AppStepper.app_apply_calibrated (s : AppStepper) (op : AppOp) :
    (s.apply op).calibrated = s.calibrated := by
  cases op with
  | speedOp sps stopPin => exact AppStepper.app_speed_calibrated s sps stopPin
  | getPosOp delta =>
    show (s.get_pos delta).2.calibrated = s.calibrated
    simp only [AppStepper.get_pos]
    split_ifs <;> rfl
  | endstopOp pinVal =>
    show (s.hit_endstop pinVal).calibrated = s.calibrated
    simp only [AppStepper.hit_endstop]
    split_ifs <;> rfl
  | enableOp e =>
    show (s.enable e).calibrated = s.calibrated
    simp only [AppStepper.enable]
    split_ifs <;> simp
  | stopOp => exact AppStepper.app_update_timer_calibrated s 0

theorem AppStepper.app_run_calibrated (ops : List AppOp) : ∀ (s : AppStepper),
    (s.run ops).calibrated = s.calibrated := by
  induction ops with
  | nil => exact fun s => rfl
  | cons op ops ih =>
    intro s
    exact (ih (s.apply op)).trans (AppStepper.app_apply_calibrated s op)

/-- C1 fails on the code: in `src/xystage.py` an axis can become
calibrated with an out-of-range position, which `get_pos` then reports.
Running uncalibrated to half-step position -1, switching to tracking
with target 0, then receiving the first confirmed end-stop hit
calibrates the axis without re-zeroing (the handler zeroes only when
free-running toward the stop), so `get_pos` on the reachable
post-calibration state reports -1, outside `[0, maxPosition]`. -/
theorem C1_counterexample :
    ((XYStepper.run (XYStepper.init 1 50 200 3100)
        [XYOp.freeRunOp (-1), XYOp.stepOp (-1) false, XYOp.trackTargetOp,
         XYOp.targetOp 0, XYOp.endstopOp 0]).calibrated = true) ∧
    ((XYStepper.run (XYStepper.init 1 50 200 3100)
        [XYOp.freeRunOp (-1), XYOp.stepOp (-1) false, XYOp.trackTargetOp,
         XYOp.targetOp 0, XYOp.endstopOp 0]).pos = -1) ∧
    ((XYStepper.run (XYStepper.init 1 50 200 3100)
        [XYOp.freeRunOp (-1), XYOp.stepOp (-1) false, XYOp.trackTargetOp,
         XYOp.targetOp 0, XYOp.endstopOp 0]).get_pos = -1) ∧
    ¬(0 ≤ (XYStepper.run (XYStepper.init 1 50 200 3100)
        [XYOp.freeRunOp (-1), XYOp.stepOp (-1) false, XYOp.trackTargetOp,
         XYOp.targetOp 0, XYOp.endstopOp 0]).get_pos) := by
  decide

/-- C1 (amended): the claimed invariant holds in neither code path as
stated.  In `app.py`, `calibrated` can never become true — the end-stop
handler raises `AttributeError` on the missing `_settings` attribute
before the assignment — so no state reachable from the constructor
satisfies the claim's premise.  In `xystage.py`, calibration itself does
not constrain the position (an axis calibrated while not free-running
toward the stop keeps its prior, possibly out-of-range position, which
`get_pos` reports unchanged); what does hold is that `step` keeps a
calibrated in-range position within `[0, _max_pos]` by clamping at the
software end stops. -/
theorem C1_calibration_and_step_range (rev : Bool) (max_sps max_pos : Int)
    (ops : List AppOp) (x : XYStepper) (d : Int) (g : Bool)
    (hxcal : x.calibrated = true) (hxlo : 0 ≤ x.pos) (hxhi : x.pos ≤ x.max_pos) :
    (AppStepper.run (AppStepper.init rev max_sps max_pos) ops).calibrated = false ∧
    (0 ≤ (x.step d g).pos ∧ (x.step d g).pos ≤ x.max_pos) := by
  refine ⟨?_, ?_⟩
  · exact (AppStepper.app_run_calibrated ops (AppStepper.init rev max_sps max_pos)).trans rfl
  · simp only [XYStepper.step]
    split_ifs <;> simp_all [XYStepper.xy_speed_pos] <;> omega

/-- Witness for C1 (amended) on concrete data: an `app.py` axis stays
uncalibrated through a speed command and an end-stop hit, and one step
on a freshly calibrated `xystage.py` axis stays within `[0, _max_pos]`. -/
theorem C1_witness :
    ((AppStepper.run (AppStepper.init true 35200 3100)
        [AppOp.speedOp 3520 1, AppOp.endstopOp 0]).calibrated = false) ∧
    (0 ≤ (((XYStepper.init 1 50 200 3100).hit_endstop 0).step 1 false).pos ∧
      (((XYStepper.init 1 50 200 3100).hit_endstop 0).step 1 false).pos ≤
        ((XYStepper.init 1 50 200 3100).hit_endstop 0).max_pos) :=
  C1_calibration_and_step_range true 35200 3100 [AppOp.speedOp 3520 1, AppOp.endstopOp 0]
    ((XYStepper.init 1 50 200 3100).hit_endstop 0) 1 false
    (by decide) (by decide) (by decide)
